import Mathlib

/-!
# Verification of the ideabank-webapi request-processing core

A shallow embedding of the endpoint-handler lifecycle protocol, the
transactional query-execution abstraction (`QueryService`), and the
lineage-tree construction algorithm of the `ideabank_webapi` package,
together with theorems settling the specification claims about them.

Python methods that mutate `self` are embedded as functions from the
object state to a new state; methods that may raise return the raised
exception alongside the (unchanged, when the raise precedes any
mutation) state.  External collaborators that are out of scope for the
spec (the SQL engine, JWT decoding, SHA-256, presigned-URL generation)
are parameters of the embedding.
-/

namespace IdeaBank

/-! ## Error taxonomy (`ideabank_webapi.exceptions`)

Recoverable domain errors are the subclasses of
`BaseIdeaBankAPIException` that `BaseEndpointHandler.receive` catches;
`HandlerNotIdleException` and `PrematureResultRetrievalException` are
raised outside the `try` block of `receive` and hence propagate to the
caller (fatal). -/

/-- Domain errors: exceptions a handler's `receive` catches and maps to
an error response. -/
inductive DomainError where
  | noRegisteredProvider (msg : String)
  | noSessionToQueryOn (msg : String)
  | noQueryToRun (msg : String)
  | notAuthorized (msg : String)
  | invalidCredentials (msg : String)
  | requestedDataNotFound (msg : String)
  deriving Repr, DecidableEq

/-- The message carried by a domain error (`str(exc)` in Python). -/
def DomainError.message : DomainError → String
  | .noRegisteredProvider m => m
  | .noSessionToQueryOn m => m
  | .noQueryToRun m => m
  | .notAuthorized m => m
  | .invalidCredentials m => m
  | .requestedDataNotFound m => m

/-- Fatal errors: raised by the lifecycle accessors before any state
mutation and never mapped to a response. -/
inductive FatalError where
  | handlerNotIdle (msg : String)
  | prematureResultRetrieval (msg : String)
  deriving Repr, DecidableEq

/-! ## `QueryService` (`services/querydb.py`)

The underlying SQLAlchemy `Session` is embedded as a record of the
observable effects performed on it: the statements executed in order and
the number of `commit` / `rollback` calls, plus whether `close` ran.
Statement execution itself is delegated to the backing store, embedded
as a parameter `interp : Stmt → Res`. -/

/-- Observable effect record of one transactional session
(`sqlalchemy.orm.Session`). -/
structure DBSession (Stmt : Type) where
  executed : List Stmt
  commits : Nat
  rollbacks : Nat
  closed : Bool
  deriving Repr, DecidableEq

/-- A freshly opened session: nothing executed, not committed, not
rolled back, not closed. -/
def DBSession.fresh {Stmt : Type} : DBSession Stmt :=
  { executed := [], commits := 0, rollbacks := 0, closed := false }

/-- State of a `QueryService` object: the FIFO query buffer, the result
cursor of the last executed statement, and the session (present only
while the scope is open). -/
structure QueryService (Stmt Res : Type) where
  query_buffer : List Stmt
  query_results : Option Res
  session : Option (DBSession Stmt)
  deriving Repr, DecidableEq

/-- A freshly constructed `QueryService` (`__init__`). -/
def QueryService.new {Stmt Res : Type} : QueryService Stmt Res :=
  { query_buffer := [], query_results := none, session := none }

/-- Method `QueryService.add_query`: append the statement to the buffer.  No
execution, no other field changes. -/
def QueryService.add_query {Stmt Res : Type}
    (svc : QueryService Stmt Res) (q : Stmt) : QueryService Stmt Res :=
  { svc with query_buffer := svc.query_buffer ++ [q] }

/-- Method `QueryService.exec_next`: raise `NoSessionToQueryOnError` when no
session is open, `NoQueryToRunError` when the buffer is empty, otherwise
pop the oldest statement, execute it on the session and replace the
result cursor.  Both raises happen before any mutation, so the state
returned alongside an error is the input state. -/
def QueryService.exec_next {Stmt Res : Type} (interp : Stmt → Res)
    (svc : QueryService Stmt Res) :
    QueryService Stmt Res × Option DomainError :=
  match svc.session with
  | none =>
      (svc, some (.noSessionToQueryOn
        "The session for this service is not defined. Define one using a with statement"))
  | some sess =>
      match svc.query_buffer with
      | [] =>
          (svc, some (.noQueryToRun
            "There is no queued query waiting to run. Enqueue one by calling QueryService.add_query()"))
      | stmt :: rest =>
          ({ query_buffer := rest,
             query_results := some (interp stmt),
             session := some { sess with executed := sess.executed ++ [stmt] } },
           none)

/-- Method `QueryService.__enter__`: open a fresh transactional session. -/
def QueryService.scope_enter {Stmt Res : Type}
    (svc : QueryService Stmt Res) : QueryService Stmt Res :=
  { svc with session := some DBSession.fresh }

/-- Method `QueryService.__exit__`: roll the session back when an exception
occurred inside the scope body, commit otherwise, then close the session
and drop the reference to it.  The result cursor is not touched. -/
def QueryService.scope_exit {Stmt Res : Type}
    (svc : QueryService Stmt Res) (excOccurred : Bool) :
    QueryService Stmt Res × Option (DBSession Stmt) :=
  match svc.session with
  | none => (svc, none)
  | some sess =>
      let final :=
        if excOccurred then
          { sess with rollbacks := sess.rollbacks + 1, closed := true }
        else
          { sess with commits := sess.commits + 1, closed := true }
      ({ svc with session := none }, some final)

/-- One operation a handler may perform on an open scope. -/
inductive ScopeOp (Stmt : Type) where
  | addQuery (q : Stmt)
  | execNext
  deriving Repr, DecidableEq

/-- Run a sequence of scope operations, stopping at the first raised
domain error (which propagates out of the `with` body). -/
def runOps {Stmt Res : Type} (interp : Stmt → Res) :
    QueryService Stmt Res → List (ScopeOp Stmt) →
    QueryService Stmt Res × Option DomainError
  | svc, [] => (svc, none)
  | svc, .addQuery q :: rest => runOps interp (svc.add_query q) rest
  | svc, .execNext :: rest =>
      match svc.exec_next interp with
      | (svc', none) => runOps interp svc' rest
      | (svc', some e) => (svc', some e)

/-- A full `with service:` scope: enter, run the body until completion
or the first error, then exit (rollback on error, commit otherwise).
Returns the final service state, the effect record of the (now closed)
session, and the error that escaped the body, if any. -/
def runScope {Stmt Res : Type} (interp : Stmt → Res)
    (svc : QueryService Stmt Res) (body : List (ScopeOp Stmt)) :
    QueryService Stmt Res × Option (DBSession Stmt) × Option DomainError :=
  let step := runOps interp svc.scope_enter body
  let exited := step.1.scope_exit step.2.isSome
  (exited.1, exited.2, step.2)

/-! ## Endpoint-handler lifecycle (`handlers/__init__.py`)

`BaseEndpointHandler` keeps a status and an optional stored result; the
three per-endpoint operations (`_do_data_ops`, `_build_success_response`,
`_build_error_response`) are the extension point and are embedded as a
record of functions.  `_do_data_ops` may perform side effects through
registered services; those effects are threaded through an abstract
effect state `σ` so that "the data operation never ran" is expressible
as "the effect state is unchanged for every possible operation". -/

/-- Model of `EndpointHandlerStatus`: the four lifecycle states. -/
inductive EndpointHandlerStatus where
  | idle
  | processing
  | complete
  | error
  deriving Repr, DecidableEq

/-- Bodies of endpoint responses (`models.artifacts`): an error message,
an informational message, or an authorization token artifact. -/
inductive ResponseBody where
  | errorMessage (err_msg : String)
  | infoMessage (msg : String)
  | authToken (token : String) (presenter : String)
  deriving Repr, DecidableEq

/-- Model of `EndpointResponse`: status code plus body. -/
structure EndpointResponse where
  code : Nat
  body : ResponseBody
  deriving Repr, DecidableEq

/-- The mutable state of a `BaseEndpointHandler` instance. -/
structure HandlerState where
  status : EndpointHandlerStatus
  result : Option EndpointResponse
  deriving Repr, DecidableEq

/-- Method `BaseEndpointHandler.__init__`: IDLE with no result. -/
def HandlerState.new : HandlerState :=
  { status := .idle, result := none }

/-- The `result` property: raise `PrematureResultRetrievalException`
unless the status is COMPLETE or ERROR, otherwise return the stored
result. -/
def HandlerState.getResult (h : HandlerState) :
    Except FatalError (Option EndpointResponse) :=
  if h.status = .complete ∨ h.status = .error then
    .ok h.result
  else
    .error (.prematureResultRetrieval
      "Attempted to read handler results before they were ready")

/-- The three polymorphic operations a concrete handler supplies.
`do_data_ops` runs against an effect state `σ` (the registered services
and backing store) and either returns typed data or raises a domain
error. -/
structure HandlerOps (Req Data σ : Type) where
  do_data_ops : σ → Req → σ × Except DomainError Data
  build_success : Data → EndpointResponse
  build_error : DomainError → EndpointResponse

/-- Method `BaseEndpointHandler._build_error_response`: the default mapping
every unhandled domain error falls through to — 500 with the error's
message. -/
def default_build_error (e : DomainError) : EndpointResponse :=
  { code := 500, body := .errorMessage e.message }

/-- Method `BaseEndpointHandler.receive`: raise `HandlerNotIdleException` (no
mutation) unless IDLE; otherwise move to PROCESSING, run the data
operation, and store a success result (COMPLETE) or, for a caught
domain error, an error result (ERROR). -/
def baseReceive {Req Data σ : Type} (ops : HandlerOps Req Data σ)
    (h : HandlerState) (eff : σ) (req : Req) :
    HandlerState × σ × Option FatalError :=
  if h.status ≠ .idle then
    (h, eff, some (.handlerNotIdle "Expected handler to be idle, but it was not"))
  else
    let step := ops.do_data_ops eff req
    match step.2 with
    | .ok data =>
        ({ status := .complete, result := some (ops.build_success data) },
         step.1, none)
    | .error e =>
        ({ status := .error, result := some (ops.build_error e) },
         step.1, none)

/-! ## AuthorizationRequired (`handlers/preprocessors.py`)

JWT decoding and signature verification are external; they are embedded
as a parameter `decode : String → Option Claims` returning the decoded
claims when the token is well formed, correctly signed and carries the
required `username`, `exp` and `nbf` claims, and `none` otherwise
(`jwt.exceptions.InvalidTokenError`). -/

/-- The decoded claims a valid token must carry (`exp` and `nbf` are
checked by the decoder itself; only `username` is inspected further). -/
structure Claims where
  username : String
  deriving Repr, DecidableEq

/-- Model of `AuthorizationToken`: the opaque token string and the presenter
claiming to own it. -/
structure AuthorizationToken where
  token : String
  presenter : String
  deriving Repr, DecidableEq

/-- Method `AuthorizationRequired._check_if_authorized`: decode the token
(failure is `NotAuthorizedError "Invalid token presented."`), then
require the token's `username` claim to equal the presenter (mismatch is
`NotAuthorizedError "Cannot verify ownership of token."`). -/
def check_if_authorized (decode : String → Option Claims)
    (authorization : AuthorizationToken) : Option DomainError :=
  match decode authorization.token with
  | none => some (.notAuthorized "Invalid token presented.")
  | some claims =>
      if claims.username ≠ authorization.presenter then
        some (.notAuthorized "Cannot verify ownership of token.")
      else
        none

/-- Method `AuthorizationRequired._build_error_response`: 401 with the error's
message for `NotAuthorizedError`, the base default 500 mapping for
anything else. -/
def authRequired_build_error (e : DomainError) : EndpointResponse :=
  match e with
  | .notAuthorized msg => { code := 401, body := .errorMessage msg }
  | _ => default_build_error e

/-- Method `AuthorizationRequired.receive`: validate the request's token first;
on `NotAuthorizedError` store the 401 error result and set ERROR without
consulting the base lifecycle, otherwise delegate to the base
`receive`. -/
def gatedReceive {Req Data σ : Type} (decode : String → Option Claims)
    (getToken : Req → AuthorizationToken) (ops : HandlerOps Req Data σ)
    (h : HandlerState) (eff : σ) (req : Req) :
    HandlerState × σ × Option FatalError :=
  match check_if_authorized decode (getToken req) with
  | some e =>
      ({ status := .error, result := some (authRequired_build_error e) },
       eff, none)
  | none => baseReceive ops h eff req

/-! ## AuthenticationHandler (`handlers/retrievers.py`)

The accounts table keys rows by `display_name` (primary key), so the
authentication lookup yields at most one row; it is embedded as
`lookup : String → Option AccountRecord`.  SHA-256 is external and
embedded as `sha256hex : String → String`; token signing as
`gen_token : String → String`. -/

/-- Model of `CredentialSet`: the submitted display name and password. -/
structure CredentialSet where
  display_name : String
  password : String
  deriving Repr, DecidableEq

/-- The row returned by `fetch_authentication_information`. -/
structure AccountRecord where
  display_name : String
  password_hash : String
  salt_value : String
  deriving Repr, DecidableEq

/-- Method `AuthenticationHandler.__verify_credentials`: hash the submitted
password concatenated with the stored salt and compare against the
stored hash; mismatch raises
`InvalidCredentialsException "Invalid display name or password"`. -/
def verify_credentials (sha256hex : String → String)
    (provided : CredentialSet) (oracle : AccountRecord) :
    Except DomainError Unit :=
  if sha256hex (provided.password ++ oracle.salt_value) = oracle.password_hash then
    .ok ()
  else
    .error (.invalidCredentials "Invalid display name or password")

/-- Method `AuthenticationHandler._do_data_ops`: look the account up by display
name; a missing row (`NoResultFound` from `.one()`) becomes
`InvalidCredentialsException "Invalid display name or password"`;
otherwise verify the credentials and return the stored display name. -/
def authentication_do_data_ops (sha256hex : String → String)
    (lookup : String → Option AccountRecord) (eff : Unit)
    (req : CredentialSet) : Unit × Except DomainError String :=
  match lookup req.display_name with
  | none => (eff, .error (.invalidCredentials "Invalid display name or password"))
  | some row =>
      match verify_credentials sha256hex req row with
      | .ok _ => (eff, .ok row.display_name)
      | .error e => (eff, .error e)

/-- Method `AuthenticationHandler._build_error_response`: 401 with the error's
message for `InvalidCredentialsException`, default 500 otherwise. -/
def authentication_build_error (e : DomainError) : EndpointResponse :=
  match e with
  | .invalidCredentials msg => { code := 401, body := .errorMessage msg }
  | _ => default_build_error e

/-- Method `AuthenticationHandler._build_success_response`: 200 carrying an
`AuthorizationToken` whose presenter is the authenticated display
name. -/
def authentication_build_success (gen_token : String → String)
    (owner : String) : EndpointResponse :=
  { code := 200, body := .authToken (gen_token owner) owner }

/-- The three-operation record of `AuthenticationHandler`. -/
def authenticationHandlerOps (sha256hex : String → String)
    (gen_token : String → String)
    (lookup : String → Option AccountRecord) :
    HandlerOps CredentialSet String Unit :=
  { do_data_ops := authentication_do_data_ops sha256hex lookup,
    build_success := authentication_build_success gen_token,
    build_error := authentication_build_error }

/-! ## Lineage construction (`ConceptLineageHandler._do_data_ops`)

The `treelib.Tree` built by the handler is embedded as a rose tree of
nodes carrying a `ConceptSimpleView` payload; `Tree.paste(nid, other)`
grafts the other tree's root as a child of node `nid`, and
`Tree.create_node(..., parent=p)` appends a new leaf under the node
whose identifier is `p`.  Presigned thumbnail URLs come from the
external object-link provider, embedded as `share : String → String`. -/

/-- Model of `ConceptSimpleView`: a concept identifier plus its thumbnail
link. -/
structure ConceptSimpleView where
  identifier : String
  thumbnail_url : String
  deriving Repr, DecidableEq

/-- A rooted tree of concept views (embedding of `treelib.Tree`, which
always has a single root here). -/
inductive LTree where
  | node (data : ConceptSimpleView) (children : List LTree)
  deriving Repr

/-- The identifier at the root of a tree. -/
def LTree.rootId : LTree → String
  | .node v _ => v.identifier

/-- The payload at the root of a tree. -/
def LTree.rootData : LTree → ConceptSimpleView
  | .node v _ => v

/-- The immediate children of the root. -/
def LTree.rootChildren : LTree → List LTree
  | .node _ cs => cs

mutual

/-- Method `Tree.size()`: the number of nodes in the tree. -/
def LTree.size : LTree → Nat
  | .node _ cs => 1 + LTree.sizeList cs

/-- Total size of a forest. -/
def LTree.sizeList : List LTree → Nat
  | [] => 0
  | t :: ts => LTree.size t + LTree.sizeList ts

end

mutual

/-- Method `Tree.create_node` with a parent argument `pid`: append a new leaf carrying
`child` under every node whose identifier is `pid` (identifiers are
unique in a `treelib` tree, so at most one node matches). -/
def LTree.insertUnder : LTree → String → ConceptSimpleView → LTree
  | .node v cs, pid, child =>
      if v.identifier = pid then
        .node v (cs ++ [.node child []])
      else
        .node v (LTree.insertUnderList cs pid child)

/-- Helper: `insertUnder` mapped over a forest. -/
def LTree.insertUnderList : List LTree → String → ConceptSimpleView → List LTree
  | [], _, _ => []
  | t :: ts, pid, child =>
      LTree.insertUnder t pid child :: LTree.insertUnderList ts pid child

end

mutual

/-- Find the subtree rooted at the node with the given identifier. -/
def LTree.findNode : LTree → String → Option LTree
  | .node v cs, nid =>
      if v.identifier = nid then some (.node v cs)
      else LTree.findNodeList cs nid

/-- Helper: `findNode` over a forest: first match wins. -/
def LTree.findNodeList : List LTree → String → Option LTree
  | [], _ => none
  | t :: ts, nid =>
      match LTree.findNode t nid with
      | some r => some r
      | none => LTree.findNodeList ts nid

end

/-- An edge row returned by the recursive ancestor/descendant queries
(`concept_links`). -/
structure ConceptLinkEdge where
  ancestor : String
  descendant : String
  deriving Repr, DecidableEq

/-- Model of `ConceptRequest`: the payload naming the focus concept. -/
structure ConceptRequest where
  author : String
  title : String
  simple : Bool
  deriving Repr, DecidableEq

/-- Model of `ConceptLineage`: node count plus serialized tree. -/
structure ConceptLineage where
  nodes : Nat
  lineage : LTree
  deriving Repr

/-- The view built for a node of the lineage tree: identifier plus the
share link of its thumbnail. -/
def lineageView (share : String → String) (identifier : String) :
    ConceptSimpleView :=
  { identifier := identifier, thumbnail_url := share ("thumbnails/" ++ identifier) }

/-- One iteration of the ancestor loop: build a one-node tree rooted at
the edge's ancestor and `paste` the accumulated tree beneath it. -/
def ancestorStep (share : String → String) (acc : LTree)
    (e : ConceptLinkEdge) : LTree :=
  .node (lineageView share e.ancestor) [acc]

/-- One iteration of the descendant loop: `create_node` for the edge's
descendant as a child of the node identified by the edge's ancestor. -/
def descendantStep (share : String → String) (acc : LTree)
    (e : ConceptLinkEdge) : LTree :=
  acc.insertUnder e.ancestor (lineageView share e.descendant)

/-- Method `ConceptLineageHandler._do_data_ops`: confirm the focus concept
exists (`NoResultFound` becomes `RequestedDataNotFound`), seed a
one-node tree at the focus, graft each ancestor row in query order above
the accumulated tree, then attach each descendant row beneath its
ancestor node, and return the tree with its node count.  The rows the
two recursive queries return are embedded as the lists `parentRows` and
`childRows` (ordered by increasing depth, as the queries order them). -/
def lineage_do_data_ops (share : String → String) (focusRow : Option Unit)
    (parentRows childRows : List ConceptLinkEdge) (req : ConceptRequest) :
    Except DomainError ConceptLineage :=
  let focus := req.author ++ "/" ++ req.title
  match focusRow with
  | none =>
      .error (.requestedDataNotFound
        ("Could not build the lineage for " ++ req.author ++ "/" ++ req.title))
  | some _ =>
      let t0 : LTree := .node (lineageView share focus) []
      let t1 := parentRows.foldl (ancestorStep share) t0
      let t2 := childRows.foldl (descendantStep share) t1
      .ok { nodes := t2.size, lineage := t2 }

/-! ## Concept search statement (`ConceptsDataService.query_concepts`) -/

/-- Model of `FuzzyOption` (`models.artifacts`): which of the two text fields use
pattern matching. -/
inductive FuzzyOption where
  | none
  | author
  | title
  | all
  deriving Repr, DecidableEq

/-- A predicate on one text column of the built SELECT: either an
exact-match comparison (`col = value`) or a pattern comparison
(`col LIKE value`). -/
inductive FieldPredicate where
  | exact (value : String)
  | pattern (value : String)
  deriving Repr, DecidableEq

/-- The WHERE clause of the built concept-search SELECT: one predicate
per text field plus two strict bounds on `updated_at`. -/
structure ConceptSearchStatement where
  authorPred : FieldPredicate
  titlePred : FieldPredicate
  lowerBound : Int
  upperBound : Int
  deriving Repr, DecidableEq

/-- Modelled from the spec: `ConceptsDataService.query_concepts` is not
among the provided sources (only its unit test
`test_concept_query_result_builds` is).  Per the spec's testable
property and the unit test's expected SQL, the builder selects a LIKE
predicate for the author column when the fuzzy option is ALL or AUTHOR
and an equality predicate otherwise, a LIKE predicate for the title
column when the fuzzy option is ALL or TITLE and an equality predicate
otherwise, and always constrains `updated_at > not_before AND
updated_at < not_after`.  Timestamps are embedded as integers. -/
def query_concepts (title author : String) (not_before not_after : Int)
    (fuzzy : FuzzyOption) : ConceptSearchStatement :=
  { authorPred :=
      match fuzzy with
      | .all => .pattern author
      | .author => .pattern author
      | .title => .exact author
      | .none => .exact author,
    titlePred :=
      match fuzzy with
      | .all => .pattern title
      | .title => .pattern title
      | .author => .exact title
      | .none => .exact title,
    lowerBound := not_before,
    upperBound := not_after }

/-- A row of the `concepts` table, restricted to the columns the search
statement reads. -/
structure ConceptRow where
  identifier : String
  author : String
  title : String
  updated_at : Int
  deriving Repr, DecidableEq

/-- Evaluate a field predicate on a column value.  SQL `LIKE` semantics
belongs to the external query engine and is embedded as the parameter
`patMatch pattern value`. -/
def FieldPredicate.holds (patMatch : String → String → Bool) :
    FieldPredicate → String → Bool
  | .exact x, v => v = x
  | .pattern x, v => patMatch x v

/-- Whether a row satisfies the built statement's WHERE clause. -/
def rowMatches (patMatch : String → String → Bool)
    (stmt : ConceptSearchStatement) (row : ConceptRow) : Bool :=
  stmt.authorPred.holds patMatch row.author
    && stmt.titlePred.holds patMatch row.title
    && decide (stmt.lowerBound < row.updated_at)
    && decide (row.updated_at < stmt.upperBound)

/-- The time-window membership the claim asserts, following its words:
a half-open window with `updated_at` in `[not_before, not_after)`. -/
def claimedWindow (not_before not_after updated_at : Int) : Bool :=
  decide (not_before ≤ updated_at) && decide (updated_at < not_after)

/-! ## Concrete instances used to evaluate the model on closed inputs -/

/-- A token decoder that rejects every token (malformed token, bad
signature or missing required claims all surface as
`InvalidTokenError`, i.e. `none`). -/
def rejectAllTokens : String → Option Claims := fun _ => Option.none

/-- A gated demonstration handler whose data operation counts its own
invocations in a `Nat` effect state. -/
def countingOps : HandlerOps AuthorizationToken Unit Nat :=
  { do_data_ops := fun eff _ => (eff + 1, .ok ()),
    build_success := fun _ => { code := 200, body := .infoMessage "processed" },
    build_error := authRequired_build_error }

/-- One `receive` call on the demonstration gated handler presenting a
token its decoder rejects. -/
def demoGatedStep (h : HandlerState) (eff : Nat) :
    HandlerState × Nat × Option FatalError :=
  gatedReceive rejectAllTokens (fun t => t) countingOps h eff
    { token := "not-a-jwt", presenter := "alice" }

/-! ## Theorems settling the claims -/

/-- C5: `add_query` appends the statement to the FIFO buffer without
executing it (result cursor and session untouched); `exec_next` fails
with `NoSessionToQueryOn` when the scope is not open, fails with
`NoQueryToRun` when the scope is open but the buffer is empty, and
otherwise removes exactly the oldest buffered statement, executes it
against the open session and replaces the result cursor with that
statement's result — so buffered statements execute in FIFO order. -/
theorem add_query_exec_next_contract {Stmt Res : Type} (interp : Stmt → Res)
    (svc : QueryService Stmt Res) :
    (∀ q : Stmt,
      (svc.add_query q).query_buffer = svc.query_buffer ++ [q] ∧
      (svc.add_query q).query_results = svc.query_results ∧
      (svc.add_query q).session = svc.session) ∧
    (svc.session = none →
      svc.exec_next interp = (svc, some (.noSessionToQueryOn
        "The session for this service is not defined. Define one using a with statement"))) ∧
    (∀ sess : DBSession Stmt, svc.session = some sess → svc.query_buffer = [] →
      svc.exec_next interp = (svc, some (.noQueryToRun
        "There is no queued query waiting to run. Enqueue one by calling QueryService.add_query()"))) ∧
    (∀ (sess : DBSession Stmt) (stmt : Stmt) (rest : List Stmt),
      svc.session = some sess → svc.query_buffer = stmt :: rest →
      svc.exec_next interp =
        ({ query_buffer := rest,
           query_results := some (interp stmt),
           session := some { sess with executed := sess.executed ++ [stmt] } },
         none)) := by
  obtain ⟨buf, res, sess⟩ := svc
  refine ⟨fun q => ⟨rfl, rfl, rfl⟩, ?_, ?_, ?_⟩
  · intro h
    subst h
    rfl
  · rintro s hs rfl
    cases hs
    rfl
  · rintro s stmt rest hs hb
    cases hs
    cases hb
    rfl

/-- C5 witness: on a fresh service, `exec_next` reports the missing
session, and `add_query` buffers the statement. -/
theorem add_query_exec_next_contract_witness :
    (QueryService.new : QueryService Nat Nat).exec_next id =
      (QueryService.new, some (.noSessionToQueryOn
        "The session for this service is not defined. Define one using a with statement")) ∧
    ((QueryService.new : QueryService Nat Nat).add_query 7).query_buffer = [7] := by
  refine ⟨(add_query_exec_next_contract id QueryService.new).2.1 rfl, ?_⟩
  have h := ((add_query_exec_next_contract id (QueryService.new : QueryService Nat Nat)).1 7).1
  simpa [QueryService.new] using h

/-- C10: whenever `exec_next` raises, the pending-statement buffer and
the result cursor are left exactly as they were before the call (the
whole service state is unchanged), and when the scope is closed the
error raised is always `NoSessionToQueryOn` — the session check precedes
the empty-buffer check, even if the buffer is also empty. -/
theorem exec_next_failure_atomic {Stmt Res : Type} (interp : Stmt → Res)
    (svc : QueryService Stmt Res) :
    (∀ e : DomainError, (svc.exec_next interp).2 = some e →
      (svc.exec_next interp).1 = svc) ∧
    (svc.session = none →
      (svc.exec_next interp).2 = some (.noSessionToQueryOn
        "The session for this service is not defined. Define one using a with statement")) := by
  obtain ⟨buf, res, sess⟩ := svc
  constructor
  · intro e he
    cases sess with
    | none => rfl
    | some s =>
      cases buf with
      | nil => rfl
      | cons q qs => simp [QueryService.exec_next] at he
  · intro h
    subst h
    rfl

/-- C10 witness: a closed scope with a nonempty buffer still reports
`NoSessionToQueryOn`, and the failing call leaves the state intact. -/
theorem exec_next_failure_atomic_witness :
    (((QueryService.new : QueryService Nat Nat).add_query 3).exec_next id).2 =
      some (.noSessionToQueryOn
        "The session for this service is not defined. Define one using a with statement") ∧
    (((QueryService.new : QueryService Nat Nat).add_query 3).exec_next id).1 =
      (QueryService.new : QueryService Nat Nat).add_query 3 := by
  refine ⟨(exec_next_failure_atomic id _).2 rfl, ?_⟩
  exact (exec_next_failure_atomic id _).1 _ ((exec_next_failure_atomic id _).2 rfl)

/-- C9: reading the `result` accessor while the handler's status is
neither COMPLETE nor ERROR — in particular on a freshly constructed
handler before any `receive` call — fails with
`PrematureResultRetrieval`; in COMPLETE or ERROR it returns the stored
endpoint result. -/
theorem result_accessor_contract (h : HandlerState) :
    (h.status ≠ .complete → h.status ≠ .error →
      h.getResult = .error (.prematureResultRetrieval
        "Attempted to read handler results before they were ready")) ∧
    (h.status = .complete ∨ h.status = .error → h.getResult = .ok h.result) ∧
    HandlerState.new.getResult = .error (.prematureResultRetrieval
      "Attempted to read handler results before they were ready") := by
  refine ⟨?_, ?_, rfl⟩
  · intro h1 h2
    unfold HandlerState.getResult
    rw [if_neg]
    rintro (hc | he) <;> contradiction
  · intro hin
    unfold HandlerState.getResult
    rw [if_pos hin]

/-- C9 witness: the fresh handler refuses to yield a result; a COMPLETE
handler returns the stored one. -/
theorem result_accessor_contract_witness :
    HandlerState.new.getResult = .error (.prematureResultRetrieval
      "Attempted to read handler results before they were ready") ∧
    (HandlerState.mk .complete none).getResult = .ok none :=
  ⟨(result_accessor_contract HandlerState.new).1 (by decide) (by decide),
   (result_accessor_contract ⟨.complete, none⟩).2.1 (Or.inl rfl)⟩

/-- C2 (amended): a second `receive` on the same instance fails with
`HandlerNotIdle` (leaving the handler untouched) for every base handler,
and for every gate-wrapped handler whose request token passes
validation; no `receive` ever leaves a handler in IDLE, so an instance
is never returned to its reusable state.  When a gate-wrapped handler's
token fails validation the gate instead stores a fresh 401 result and
sets ERROR without raising. -/
theorem receive_single_use {Req Data σ : Type} (ops : HandlerOps Req Data σ)
    (h : HandlerState) (eff : σ) (req : Req) :
    (h.status ≠ .idle → baseReceive ops h eff req =
      (h, eff, some (.handlerNotIdle "Expected handler to be idle, but it was not"))) ∧
    ((baseReceive ops h eff req).1.status ≠ .idle) ∧
    (∀ (decode : String → Option Claims) (getToken : Req → AuthorizationToken),
      check_if_authorized decode (getToken req) = none → h.status ≠ .idle →
      gatedReceive decode getToken ops h eff req =
        (h, eff, some (.handlerNotIdle "Expected handler to be idle, but it was not"))) ∧
    (∀ (decode : String → Option Claims) (getToken : Req → AuthorizationToken),
      (gatedReceive decode getToken ops h eff req).1.status ≠ .idle) := by
  have h1 : h.status ≠ .idle → baseReceive ops h eff req =
      (h, eff, some (.handlerNotIdle "Expected handler to be idle, but it was not")) := by
    intro hne
    simp only [baseReceive, if_pos hne]
  have h2 : (baseReceive ops h eff req).1.status ≠ .idle := by
    simp only [baseReceive]
    by_cases hs : h.status = .idle
    · rw [if_neg (fun k => k hs)]
      split <;> simp
    · rw [if_pos hs]
      simpa using hs
  refine ⟨h1, h2, ?_, ?_⟩
  · intro decode getToken hchk hne
    simp only [gatedReceive, hchk]
    exact h1 hne
  · intro decode getToken
    simp only [gatedReceive]
    cases hchk : check_if_authorized decode (getToken req) with
    | none => exact h2
    | some e => simp

/-- C2 counterexample: on the demonstration gate-wrapped handler, whose
token always fails validation, the second `receive` does not fail with
`HandlerNotIdle`: it raises nothing and silently re-enters ERROR, even
though the first `receive` had already moved the instance out of
IDLE. -/
theorem gated_second_receive_no_handler_not_idle :
    (demoGatedStep (demoGatedStep HandlerState.new 0).1 0).2.2 = none ∧
    (demoGatedStep (demoGatedStep HandlerState.new 0).1 0).1.status = .error ∧
    (demoGatedStep HandlerState.new 0).1.status ≠ .idle := by
  refine ⟨rfl, rfl, by decide⟩

/-- C2 witness: a COMPLETE base handler rejects a second `receive` with
`HandlerNotIdle`, as does a COMPLETE gate-wrapped handler presented with
a token that validates. -/
theorem receive_single_use_witness :
    baseReceive countingOps ⟨.complete, none⟩ 0 ⟨"t", "p"⟩ =
      (⟨.complete, none⟩, 0,
       some (.handlerNotIdle "Expected handler to be idle, but it was not")) ∧
    gatedReceive (fun s => some ⟨s⟩) (fun t => t) countingOps
        ⟨.complete, none⟩ 0 ⟨"p", "p"⟩ =
      (⟨.complete, none⟩, 0,
       some (.handlerNotIdle "Expected handler to be idle, but it was not")) :=
  ⟨(receive_single_use countingOps ⟨.complete, none⟩ 0 ⟨"t", "p"⟩).1 (by decide),
   (receive_single_use countingOps ⟨.complete, none⟩ 0 ⟨"p", "p"⟩).2.2.1
     _ _ (by decide) (by decide)⟩

/-- C3: token validation fails exactly when the token does not decode
(malformed, bad signature, missing required claims) or the decoded
identity claim differs from the presenter; every validation failure is a
`NotAuthorized` error; and on any such failure the gated `receive`
stores a 401 error result carrying the error's message and returns the
effect state untouched — the domain data operation is never invoked. -/
theorem gate_blocks_unauthenticated {Req Data σ : Type}
    (decode : String → Option Claims) (getToken : Req → AuthorizationToken)
    (ops : HandlerOps Req Data σ) (h : HandlerState) (eff : σ) (req : Req) :
    (check_if_authorized decode (getToken req) ≠ none ↔
      decode (getToken req).token = none ∨
        ∃ c, decode (getToken req).token = some c ∧
          c.username ≠ (getToken req).presenter) ∧
    (∀ e : DomainError, check_if_authorized decode (getToken req) = some e →
      ∃ m, e = .notAuthorized m) ∧
    (∀ e : DomainError, check_if_authorized decode (getToken req) = some e →
      gatedReceive decode getToken ops h eff req =
        ({ status := .error,
           result := some { code := 401, body := .errorMessage e.message } },
         eff, none)) := by
  have key : ∀ e : DomainError, check_if_authorized decode (getToken req) = some e →
      ∃ m, e = .notAuthorized m := by
    intro e he
    unfold check_if_authorized at he
    cases hdec : decode (getToken req).token with
    | none =>
      simp [hdec] at he
      exact ⟨_, he.symm⟩
    | some c =>
      by_cases hu : c.username = (getToken req).presenter
      · simp [hdec, hu] at he
      · simp [hdec, hu] at he
        exact ⟨_, he.symm⟩
  refine ⟨?_, key, ?_⟩
  · unfold check_if_authorized
    cases hdec : decode (getToken req).token with
    | none => simp
    | some c =>
      by_cases hu : c.username = (getToken req).presenter
      · simp [hu]
      · simp [hu]
  · intro e he
    obtain ⟨m, rfl⟩ := key e he
    simp only [gatedReceive, he, authRequired_build_error, DomainError.message]

/-- C3 witness: the demonstration gate, fed a token its decoder rejects,
answers 401 with the invalid-token message and leaves the invocation
counter at zero. -/
theorem gate_blocks_unauthenticated_witness :
    gatedReceive rejectAllTokens (fun t => t) countingOps HandlerState.new 0
        { token := "garbage", presenter := "alice" } =
      ({ status := .error,
         result := some ⟨401, .errorMessage "Invalid token presented."⟩ },
       0, none) := by
  have h := (gate_blocks_unauthenticated rejectAllTokens (fun t => t) countingOps
      HandlerState.new 0 { token := "garbage", presenter := "alice" }).2.2
      (.notAuthorized "Invalid token presented.") rfl
  simpa [DomainError.message] using h

/-- C8: whenever the account lookup returns no row, or the submitted
password hashed with the stored salt does not match the stored hash, the
authentication handler ends in ERROR holding a 401 result whose error
body carries "Invalid display name or password". -/
theorem authentication_failure_401 (sha gen : String → String)
    (lookup : String → Option AccountRecord) (req : CredentialSet)
    (hfail : lookup req.display_name = none ∨
      ∃ row, lookup req.display_name = some row ∧
        sha (req.password ++ row.salt_value) ≠ row.password_hash) :
    baseReceive (authenticationHandlerOps sha gen lookup) HandlerState.new () req =
      ({ status := .error,
         result := some ⟨401, .errorMessage "Invalid display name or password"⟩ },
       (), none) := by
  rcases hfail with hnone | ⟨row, hrow, hne⟩
  · simp [baseReceive, HandlerState.new, authenticationHandlerOps,
      authentication_do_data_ops, hnone, authentication_build_error]
  · simp [baseReceive, HandlerState.new, authenticationHandlerOps,
      authentication_do_data_ops, hrow, verify_credentials, hne,
      authentication_build_error]

/-- C8 witness: authenticating against an empty account table yields the
401 invalid-credentials response, as does a stored row whose hash does
not match. -/
theorem authentication_failure_401_witness :
    baseReceive (authenticationHandlerOps id id (fun _ => none))
        HandlerState.new () ⟨"alice", "pw"⟩ =
      (⟨.error, some ⟨401, .errorMessage "Invalid display name or password"⟩⟩,
       (), none) ∧
    baseReceive (authenticationHandlerOps id id
        (fun _ => some ⟨"alice", "otherhash", "salt"⟩))
        HandlerState.new () ⟨"alice", "pw"⟩ =
      (⟨.error, some ⟨401, .errorMessage "Invalid display name or password"⟩⟩,
       (), none) :=
  ⟨authentication_failure_401 id id (fun _ => none) ⟨"alice", "pw"⟩ (Or.inl rfl),
   authentication_failure_401 id id (fun _ => some ⟨"alice", "otherhash", "salt"⟩)
     ⟨"alice", "pw"⟩ (Or.inr ⟨⟨"alice", "otherhash", "salt"⟩, rfl, by decide⟩)⟩

/-- Running a scope body only ever grows the open session's execution
log: the transaction counters and the closed flag are untouched by
`add_query` and `exec_next`. -/
theorem runOps_preserves_txn {Stmt Res : Type} (interp : Stmt → Res)
    (body : List (ScopeOp Stmt)) :
    ∀ (svc : QueryService Stmt Res) (s : DBSession Stmt), svc.session = some s →
    ∃ s', (runOps interp svc body).1.session = some s' ∧
      s'.commits = s.commits ∧ s'.rollbacks = s.rollbacks ∧
      s'.closed = s.closed := by
  induction body with
  | nil =>
    intro svc s hs
    exact ⟨s, hs, rfl, rfl, rfl⟩
  | cons op rest ih =>
    intro svc s hs
    cases op with
    | addQuery q =>
      simp only [runOps]
      exact ih (svc.add_query q) s (by simpa [QueryService.add_query] using hs)
    | execNext =>
      simp only [runOps, QueryService.exec_next, hs]
      cases hb : svc.query_buffer with
      | nil => exact ⟨s, hs, rfl, rfl, rfl⟩
      | cons q qs =>
        exact ih _ { s with executed := s.executed ++ [q] } rfl

/-- C4: exiting a query-execution scope performs exactly one
commit-or-rollback on the underlying session — a commit exactly when no
exception escaped the scope body, a rollback exactly when one did — and
then closes the session. -/
theorem scope_commits_or_rolls_back {Stmt Res : Type} (interp : Stmt → Res)
    (svc : QueryService Stmt Res) (body : List (ScopeOp Stmt)) :
    ∃ s : DBSession Stmt,
      (runScope interp svc body).2.1 = some s ∧
      s.commits + s.rollbacks = 1 ∧
      (s.commits = 1 ↔ (runScope interp svc body).2.2 = none) ∧
      (s.rollbacks = 1 ↔ (runScope interp svc body).2.2 ≠ none) ∧
      s.closed = true := by
  obtain ⟨s', hsess, hc, hr, hcl⟩ :=
    runOps_preserves_txn interp body svc.scope_enter DBSession.fresh rfl
  simp only [DBSession.fresh] at hc hr
  have h22 : (runScope interp svc body).2.2 =
      (runOps interp svc.scope_enter body).2 := rfl
  cases herr : (runOps interp svc.scope_enter body).2 with
  | none =>
    refine ⟨{ s' with commits := s'.commits + 1, closed := true },
      ?_, by simp [hc, hr], by simp [hc, h22, herr], by simp [hr, h22, herr], rfl⟩
    simp [runScope, QueryService.scope_exit, hsess, herr]
  | some e =>
    refine ⟨{ s' with rollbacks := s'.rollbacks + 1, closed := true },
      ?_, by simp [hc, hr], by simp [hc, h22, herr], by simp [hr, h22, herr], rfl⟩
    simp [runScope, QueryService.scope_exit, hsess, herr]

/-- Exiting a scope (`scope_exit`) drops the session reference but keeps the result
cursor exactly as it was. -/
theorem scope_exit_keeps_cursor {Stmt Res : Type}
    (svc : QueryService Stmt Res) (b : Bool) :
    (svc.scope_exit b).1.query_results = svc.query_results ∧
    (svc.scope_exit b).1.session = none := by
  obtain ⟨buf, res, sess⟩ := svc
  cases sess with
  | none => exact ⟨rfl, rfl⟩
  | some s => cases b <;> exact ⟨rfl, rfl⟩

/-- C6 counterexample: a scope that buffered and executed one statement
and then exited still answers the last executed statement's result
through the cursor — exit does not clear `query_results`, it only drops
the session. -/
theorem results_survive_scope_exit :
    ((runScope (fun n : Nat => n + 1) QueryService.new
        [.addQuery 5, .execNext]).1).query_results = some 6 ∧
    ((runScope (fun n : Nat => n + 1) QueryService.new
        [.addQuery 5, .execNext]).1).session = none :=
  ⟨rfl, rfl⟩

/-- C6 (amended): while the scope is open the result cursor always
reflects the most recently executed statement — it equals the backing
store's result for the last entry of the session's execution log — and
exiting the scope closes and drops the session while leaving the result
cursor holding that last result rather than invalidating it. -/
theorem cursor_reflects_last_statement {Stmt Res : Type} (interp : Stmt → Res)
    (body : List (ScopeOp Stmt)) :
    ∀ (svc : QueryService Stmt Res) (s : DBSession Stmt),
      svc.session = some s →
      svc.query_results = s.executed.getLast?.map interp →
      (∃ s', (runOps interp svc body).1.session = some s' ∧
        (runOps interp svc body).1.query_results =
          s'.executed.getLast?.map interp) ∧
      (∀ b, ((runOps interp svc body).1.scope_exit b).1.query_results =
          (runOps interp svc body).1.query_results ∧
        ((runOps interp svc body).1.scope_exit b).1.session = none) := by
  induction body with
  | nil =>
    intro svc s hs hres
    exact ⟨⟨s, hs, hres⟩, fun b => scope_exit_keeps_cursor _ b⟩
  | cons op rest ih =>
    intro svc s hs hres
    cases op with
    | addQuery q =>
      simp only [runOps]
      exact ih (svc.add_query q) s (by simpa [QueryService.add_query] using hs)
        (by simpa [QueryService.add_query] using hres)
    | execNext =>
      simp only [runOps, QueryService.exec_next, hs]
      cases hb : svc.query_buffer with
      | nil => exact ⟨⟨s, hs, hres⟩, fun b => scope_exit_keeps_cursor _ b⟩
      | cons q qs =>
        refine ih _ { s with executed := s.executed ++ [q] } rfl ?_
        simp

/-- C6 witness: the amended property at a concrete one-statement
scope. -/
theorem cursor_reflects_last_statement_witness :
    (∃ s', (runOps (fun n : Nat => n + 1)
        ((QueryService.new : QueryService Nat Nat).scope_enter)
        [.addQuery 5, .execNext]).1.session = some s' ∧
      (runOps (fun n : Nat => n + 1)
        ((QueryService.new : QueryService Nat Nat).scope_enter)
        [.addQuery 5, .execNext]).1.query_results =
          s'.executed.getLast?.map (fun n : Nat => n + 1)) ∧
    (∀ b, ((runOps (fun n : Nat => n + 1)
        ((QueryService.new : QueryService Nat Nat).scope_enter)
        [.addQuery 5, .execNext]).1.scope_exit b).1.query_results =
          (runOps (fun n : Nat => n + 1)
            ((QueryService.new : QueryService Nat Nat).scope_enter)
            [.addQuery 5, .execNext]).1.query_results ∧
      ((runOps (fun n : Nat => n + 1)
        ((QueryService.new : QueryService Nat Nat).scope_enter)
        [.addQuery 5, .execNext]).1.scope_exit b).1.session = none) :=
  cursor_reflects_last_statement (fun n => n + 1) [.addQuery 5, .execNext]
    ((QueryService.new : QueryService Nat Nat).scope_enter) DBSession.fresh rfl rfl

/-- C1: for a lineage request whose focus concept exists, whose ancestor
query returns the two edges of an ancestor chain in increasing-depth
order, and whose descendant query returns two direct-child edges of the
focus, the handler returns a lineage tree with exactly 5 nodes, exactly
one root — the most distant ancestor — and exactly the two children
under the original focus node; and each successive ancestor processed
becomes the new root with the previously accumulated tree grafted
beneath it. -/
theorem lineage_two_ancestors_two_children (share : String → String)
    (req : ConceptRequest) (a1 a2 c1 c2 : String)
    (h1 : a1 ≠ req.author ++ "/" ++ req.title)
    (h2 : a2 ≠ req.author ++ "/" ++ req.title)
    (h12 : a1 ≠ a2)
    (hc1 : c1 ≠ req.author ++ "/" ++ req.title)
    (hc1a1 : c1 ≠ a1) (hc1a2 : c1 ≠ a2)
    (hc2 : c2 ≠ req.author ++ "/" ++ req.title)
    (hc2a1 : c2 ≠ a1) (hc2a2 : c2 ≠ a2)
    (hcc : c1 ≠ c2) :
    ∃ lin : ConceptLineage,
      lineage_do_data_ops share (some ())
        [⟨a1, req.author ++ "/" ++ req.title⟩, ⟨a2, a1⟩]
        [⟨req.author ++ "/" ++ req.title, c1⟩,
         ⟨req.author ++ "/" ++ req.title, c2⟩] req = .ok lin ∧
      lin.nodes = 5 ∧
      lin.lineage.size = 5 ∧
      lin.lineage.rootId = a2 ∧
      lin.lineage.findNode (req.author ++ "/" ++ req.title) =
        some (.node (lineageView share (req.author ++ "/" ++ req.title))
          [.node (lineageView share c1) [], .node (lineageView share c2) []]) ∧
      ((lin.lineage.findNode (req.author ++ "/" ++ req.title)).map
        (fun t => t.rootChildren.length)) = some 2 ∧
      (∀ (t0 : LTree) (es : List ConceptLinkEdge) (e : ConceptLinkEdge),
        (es ++ [e]).foldl (ancestorStep share) t0 =
          .node (lineageView share e.ancestor)
            [es.foldl (ancestorStep share) t0]) := by
  refine ⟨⟨5, .node (lineageView share a2)
      [.node (lineageView share a1)
        [.node (lineageView share (req.author ++ "/" ++ req.title))
          [.node (lineageView share c1) [], .node (lineageView share c2) []]]]⟩,
    ?_, rfl, ?_, ?_, ?_, ?_, ?_⟩
  · simp only [lineage_do_data_ops, List.foldl, ancestorStep, descendantStep]
    simp [LTree.insertUnder, LTree.insertUnderList, lineageView, h1, h2,
      LTree.size, LTree.sizeList]
  · simp [LTree.size, LTree.sizeList]
  · simp [LTree.rootId, lineageView]
  · simp [LTree.findNode, LTree.findNodeList, lineageView, h1, h2]
  · simp [LTree.findNode, LTree.findNodeList, lineageView, h1, h2,
      LTree.rootChildren]
  · intro t0 es e
    simp [List.foldl_append, ancestorStep]

/-- C1 witness: the lineage property at a concrete focus "user/idea"
with ancestors A1 (parent) and A2 (grandparent) and children C1, C2. -/
theorem lineage_two_ancestors_two_children_witness :
    ∃ lin : ConceptLineage,
      lineage_do_data_ops id (some ())
        [⟨"A1", "user" ++ "/" ++ "idea"⟩, ⟨"A2", "A1"⟩]
        [⟨"user" ++ "/" ++ "idea", "C1"⟩, ⟨"user" ++ "/" ++ "idea", "C2"⟩]
        ⟨"user", "idea", true⟩ = .ok lin ∧
      lin.nodes = 5 ∧
      lin.lineage.size = 5 ∧
      lin.lineage.rootId = "A2" ∧
      lin.lineage.findNode ("user" ++ "/" ++ "idea") =
        some (.node (lineageView id ("user" ++ "/" ++ "idea"))
          [.node (lineageView id "C1") [], .node (lineageView id "C2") []]) ∧
      ((lin.lineage.findNode ("user" ++ "/" ++ "idea")).map
        (fun t => t.rootChildren.length)) = some 2 ∧
      (∀ (t0 : LTree) (es : List ConceptLinkEdge) (e : ConceptLinkEdge),
        (es ++ [e]).foldl (ancestorStep id) t0 =
          .node (lineageView id e.ancestor)
            [es.foldl (ancestorStep id) t0]) :=
  lineage_two_ancestors_two_children id ⟨"user", "idea", true⟩ "A1" "A2" "C1" "C2"
    (by decide) (by decide) (by decide) (by decide) (by decide) (by decide)
    (by decide) (by decide) (by decide) (by decide)

/-- C7 counterexample: under fuzzy NONE, with both field predicates
satisfied, a concept updated exactly at not_before lies inside the
half-open window [not_before, not_after) the claim asserts, yet the
built statement rejects the row — the statement's lower time bound is
strict. -/
theorem search_window_excludes_not_before :
    claimedWindow 0 10 0 = true ∧
    (query_concepts "t" "a" 0 10 FuzzyOption.none).authorPred.holds
      (fun _ _ => true) "a" = true ∧
    (query_concepts "t" "a" 0 10 FuzzyOption.none).titlePred.holds
      (fun _ _ => true) "t" = true ∧
    rowMatches (fun _ _ => true) (query_concepts "t" "a" 0 10 FuzzyOption.none)
      { identifier := "a/t", author := "a", title := "t", updated_at := 0 } =
      false := by
  refine ⟨rfl, ?_, ?_, ?_⟩ <;> decide

/-- C7 (amended): the built search statement applies the 2×2
exact-versus-pattern policy selected by the four-valued fuzzy option —
pattern predicates on both fields for ALL, exact on both for NONE, a
pattern predicate only on the named field for AUTHOR and TITLE — and a
row satisfies the statement exactly when both field predicates hold and
its `updated_at` lies strictly between not_before and not_after (open
interval: both endpoints excluded). -/
theorem query_concepts_policy (title author : String) (nb na : Int) :
    query_concepts title author nb na .all =
      { authorPred := .pattern author, titlePred := .pattern title,
        lowerBound := nb, upperBound := na } ∧
    query_concepts title author nb na FuzzyOption.none =
      { authorPred := .exact author, titlePred := .exact title,
        lowerBound := nb, upperBound := na } ∧
    query_concepts title author nb na .author =
      { authorPred := .pattern author, titlePred := .exact title,
        lowerBound := nb, upperBound := na } ∧
    query_concepts title author nb na .title =
      { authorPred := .exact author, titlePred := .pattern title,
        lowerBound := nb, upperBound := na } ∧
    (∀ (fuzzy : FuzzyOption) (patMatch : String → String → Bool)
        (row : ConceptRow),
      rowMatches patMatch (query_concepts title author nb na fuzzy) row = true ↔
        ((query_concepts title author nb na fuzzy).authorPred.holds
            patMatch row.author = true ∧
         (query_concepts title author nb na fuzzy).titlePred.holds
            patMatch row.title = true ∧
         nb < row.updated_at ∧ row.updated_at < na)) := by
  refine ⟨rfl, rfl, rfl, rfl, ?_⟩
  intro fuzzy patMatch row
  cases fuzzy <;>
    simp [rowMatches, query_concepts, and_assoc]

/-- C7 witness: a row strictly inside the window with matching pattern
predicates satisfies the ALL-fuzzy statement. -/
theorem query_concepts_policy_witness :
    rowMatches (fun _ _ => true) (query_concepts "t" "a" 0 10 .all)
      { identifier := "a/t", author := "a", title := "t", updated_at := 5 } =
      true :=
  ((query_concepts_policy "t" "a" 0 10).2.2.2.2 .all (fun _ _ => true)
    ⟨"a/t", "a", "t", 5⟩).mpr ⟨rfl, rfl, by decide, by decide⟩

end IdeaBank
